import Mathlib

/-!
Verification of the autopilot guidance-law engine data contract and per-tick
step behaviour of the `fbw` model (`AutopilotLaws`).

The interface record types are translated field by field from
`src/fbw/src/model/AutopilotLaws_types.h`: `real_T` becomes `ℝ` and
`boolean_T` becomes `Bool`.  Alongside each structure, a `fields` list
records the declared (name, scalar kind) pairs in source order, so that
facts about which fields exist and with which scalar kind are decidable.

The step function itself (`AutopilotLaws.cpp`) is not part of the given
sources; the per-tick behaviour is modelled from the specification
(spec sections 4-7) and every such definition is marked
`Modelled from the spec:` in its doc comment.
-/

/-- Scalar kinds used by the generated header: `real_T` (double) and
`boolean_T`. -/
inductive CT where
  | real : CT
  | bool : CT
deriving DecidableEq, Repr

/-- `ap_raw_time` from AutopilotLaws_types.h. -/
structure ap_raw_time where
  dt : ℝ
  simulation_time : ℝ

/-- Declared fields of `ap_raw_time`, in source order. -/
def ap_raw_time.fields : List (String × CT) :=
  [("dt", CT.real), ("simulation_time", CT.real)]

/-- `ap_raw_data` from AutopilotLaws_types.h: the raw sensor snapshot. -/
structure ap_raw_data where
  Theta_deg : ℝ
  Phi_deg : ℝ
  q_rad_s : ℝ
  r_rad_s : ℝ
  p_rad_s : ℝ
  V_ias_kn : ℝ
  V_tas_kn : ℝ
  V_mach : ℝ
  V_gnd_kn : ℝ
  alpha_deg : ℝ
  H_ft : ℝ
  H_ind_ft : ℝ
  H_radio_ft : ℝ
  H_dot_ft_min : ℝ
  Psi_magnetic_deg : ℝ
  Psi_magnetic_track_deg : ℝ
  Psi_true_deg : ℝ
  bx_m_s2 : ℝ
  by_m_s2 : ℝ
  bz_m_s2 : ℝ
  nav_valid : Bool
  nav_loc_deg : ℝ
  nav_gs_deg : ℝ
  nav_dme_valid : ℝ
  nav_dme_nmi : ℝ
  nav_loc_valid : Bool
  nav_loc_error_deg : ℝ
  nav_gs_valid : Bool
  nav_gs_error_deg : ℝ
  flight_guidance_xtk_nmi : ℝ
  flight_guidance_tae_deg : ℝ
  flight_guidance_phi_deg : ℝ
  flight_phase : ℝ
  V2_kn : ℝ
  VAPP_kn : ℝ
  VLS_kn : ℝ
  VMAX_kn : ℝ
  is_flight_plan_available : Bool
  altitude_constraint_ft : ℝ
  thrust_reduction_altitude : ℝ
  thrust_reduction_altitude_go_around : ℝ
  acceleration_altitude : ℝ
  acceleration_altitude_engine_out : ℝ
  acceleration_altitude_go_around : ℝ
  acceleration_altitude_go_around_engine_out : ℝ
  cruise_altitude : ℝ
  gear_strut_compression_1 : ℝ
  gear_strut_compression_2 : ℝ
  zeta_pos : ℝ
  throttle_lever_1_pos : ℝ
  throttle_lever_2_pos : ℝ
  flaps_handle_index : ℝ
  is_engine_operative_1 : Bool
  is_engine_operative_2 : Bool

/-- Declared fields of `ap_raw_data`, in source order. -/
def ap_raw_data.fields : List (String × CT) :=
  [("Theta_deg", CT.real), ("Phi_deg", CT.real),
   ("q_rad_s", CT.real), ("r_rad_s", CT.real), ("p_rad_s", CT.real),
   ("V_ias_kn", CT.real), ("V_tas_kn", CT.real), ("V_mach", CT.real),
   ("V_gnd_kn", CT.real), ("alpha_deg", CT.real),
   ("H_ft", CT.real), ("H_ind_ft", CT.real), ("H_radio_ft", CT.real),
   ("H_dot_ft_min", CT.real),
   ("Psi_magnetic_deg", CT.real), ("Psi_magnetic_track_deg", CT.real),
   ("Psi_true_deg", CT.real),
   ("bx_m_s2", CT.real), ("by_m_s2", CT.real), ("bz_m_s2", CT.real),
   ("nav_valid", CT.bool), ("nav_loc_deg", CT.real), ("nav_gs_deg", CT.real),
   ("nav_dme_valid", CT.real), ("nav_dme_nmi", CT.real),
   ("nav_loc_valid", CT.bool), ("nav_loc_error_deg", CT.real),
   ("nav_gs_valid", CT.bool), ("nav_gs_error_deg", CT.real),
   ("flight_guidance_xtk_nmi", CT.real), ("flight_guidance_tae_deg", CT.real),
   ("flight_guidance_phi_deg", CT.real), ("flight_phase", CT.real),
   ("V2_kn", CT.real), ("VAPP_kn", CT.real), ("VLS_kn", CT.real),
   ("VMAX_kn", CT.real),
   ("is_flight_plan_available", CT.bool), ("altitude_constraint_ft", CT.real),
   ("thrust_reduction_altitude", CT.real),
   ("thrust_reduction_altitude_go_around", CT.real),
   ("acceleration_altitude", CT.real),
   ("acceleration_altitude_engine_out", CT.real),
   ("acceleration_altitude_go_around", CT.real),
   ("acceleration_altitude_go_around_engine_out", CT.real),
   ("cruise_altitude", CT.real),
   ("gear_strut_compression_1", CT.real), ("gear_strut_compression_2", CT.real),
   ("zeta_pos", CT.real),
   ("throttle_lever_1_pos", CT.real), ("throttle_lever_2_pos", CT.real),
   ("flaps_handle_index", CT.real),
   ("is_engine_operative_1", CT.bool), ("is_engine_operative_2", CT.bool)]

/-- `ap_raw_laws_input` from AutopilotLaws_types.h: the guidance command. -/
structure ap_raw_laws_input where
  enabled_AP1 : ℝ
  enabled_AP2 : ℝ
  lateral_law : ℝ
  lateral_mode : ℝ
  lateral_mode_armed : ℝ
  vertical_law : ℝ
  vertical_mode : ℝ
  vertical_mode_armed : ℝ
  mode_reversion_lateral : ℝ
  mode_reversion_vertical : ℝ
  mode_reversion_TRK_FPA : Bool
  mode_reversion_triple_click : Bool
  mode_reversion_fma : Bool
  speed_protection_mode : Bool
  autothrust_mode : ℝ
  Psi_c_deg : ℝ
  H_c_ft : ℝ
  H_dot_c_fpm : ℝ
  FPA_c_deg : ℝ
  V_c_kn : ℝ
  ALT_soft_mode_active : Bool
  ALT_cruise_mode_active : Bool
  EXPED_mode_active : Bool
  FD_disconnect : Bool
  FD_connect : Bool

/-- Declared fields of `ap_raw_laws_input`, in source order. -/
def ap_raw_laws_input.fields : List (String × CT) :=
  [("enabled_AP1", CT.real), ("enabled_AP2", CT.real),
   ("lateral_law", CT.real), ("lateral_mode", CT.real),
   ("lateral_mode_armed", CT.real),
   ("vertical_law", CT.real), ("vertical_mode", CT.real),
   ("vertical_mode_armed", CT.real),
   ("mode_reversion_lateral", CT.real), ("mode_reversion_vertical", CT.real),
   ("mode_reversion_TRK_FPA", CT.bool), ("mode_reversion_triple_click", CT.bool),
   ("mode_reversion_fma", CT.bool), ("speed_protection_mode", CT.bool),
   ("autothrust_mode", CT.real),
   ("Psi_c_deg", CT.real), ("H_c_ft", CT.real), ("H_dot_c_fpm", CT.real),
   ("FPA_c_deg", CT.real), ("V_c_kn", CT.real),
   ("ALT_soft_mode_active", CT.bool), ("ALT_cruise_mode_active", CT.bool),
   ("EXPED_mode_active", CT.bool),
   ("FD_disconnect", CT.bool), ("FD_connect", CT.bool)]

/-- `ap_laws_input` from AutopilotLaws_types.h: the per-tick input
aggregate `{ time, data, input }`. -/
structure ap_laws_input where
  time : ap_raw_time
  data : ap_raw_data
  input : ap_raw_laws_input

/-- `ap_data` from AutopilotLaws_types.h: the conditioned sensor state. -/
structure ap_data where
  Theta_deg : ℝ
  Phi_deg : ℝ
  qk_deg_s : ℝ
  rk_deg_s : ℝ
  pk_deg_s : ℝ
  V_ias_kn : ℝ
  V_tas_kn : ℝ
  V_mach : ℝ
  V_gnd_kn : ℝ
  alpha_deg : ℝ
  H_ft : ℝ
  H_ind_ft : ℝ
  H_radio_ft : ℝ
  H_dot_ft_min : ℝ
  Psi_magnetic_deg : ℝ
  Psi_magnetic_track_deg : ℝ
  Psi_true_deg : ℝ
  ax_m_s2 : ℝ
  ay_m_s2 : ℝ
  az_m_s2 : ℝ
  bx_m_s2 : ℝ
  by_m_s2 : ℝ
  bz_m_s2 : ℝ
  nav_valid : Bool
  nav_loc_deg : ℝ
  nav_gs_deg : ℝ
  nav_dme_valid : ℝ
  nav_dme_nmi : ℝ
  nav_loc_valid : Bool
  nav_loc_error_deg : ℝ
  nav_gs_valid : Bool
  nav_gs_error_deg : ℝ
  flight_guidance_xtk_nmi : ℝ
  flight_guidance_tae_deg : ℝ
  flight_guidance_phi_deg : ℝ
  flight_phase : ℝ
  V2_kn : ℝ
  VAPP_kn : ℝ
  VLS_kn : ℝ
  VMAX_kn : ℝ
  is_flight_plan_available : Bool
  altitude_constraint_ft : ℝ
  thrust_reduction_altitude : ℝ
  thrust_reduction_altitude_go_around : ℝ
  acceleration_altitude : ℝ
  acceleration_altitude_engine_out : ℝ
  acceleration_altitude_go_around : ℝ
  acceleration_altitude_go_around_engine_out : ℝ
  cruise_altitude : ℝ
  on_ground : ℝ
  zeta_deg : ℝ
  throttle_lever_1_pos : ℝ
  throttle_lever_2_pos : ℝ
  flaps_handle_index : ℝ
  is_engine_operative_1 : Bool
  is_engine_operative_2 : Bool

/-- Declared fields of `ap_data`, in source order. -/
def ap_data.fields : List (String × CT) :=
  [("Theta_deg", CT.real), ("Phi_deg", CT.real),
   ("qk_deg_s", CT.real), ("rk_deg_s", CT.real), ("pk_deg_s", CT.real),
   ("V_ias_kn", CT.real), ("V_tas_kn", CT.real), ("V_mach", CT.real),
   ("V_gnd_kn", CT.real), ("alpha_deg", CT.real),
   ("H_ft", CT.real), ("H_ind_ft", CT.real), ("H_radio_ft", CT.real),
   ("H_dot_ft_min", CT.real),
   ("Psi_magnetic_deg", CT.real), ("Psi_magnetic_track_deg", CT.real),
   ("Psi_true_deg", CT.real),
   ("ax_m_s2", CT.real), ("ay_m_s2", CT.real), ("az_m_s2", CT.real),
   ("bx_m_s2", CT.real), ("by_m_s2", CT.real), ("bz_m_s2", CT.real),
   ("nav_valid", CT.bool), ("nav_loc_deg", CT.real), ("nav_gs_deg", CT.real),
   ("nav_dme_valid", CT.real), ("nav_dme_nmi", CT.real),
   ("nav_loc_valid", CT.bool), ("nav_loc_error_deg", CT.real),
   ("nav_gs_valid", CT.bool), ("nav_gs_error_deg", CT.real),
   ("flight_guidance_xtk_nmi", CT.real), ("flight_guidance_tae_deg", CT.real),
   ("flight_guidance_phi_deg", CT.real), ("flight_phase", CT.real),
   ("V2_kn", CT.real), ("VAPP_kn", CT.real), ("VLS_kn", CT.real),
   ("VMAX_kn", CT.real),
   ("is_flight_plan_available", CT.bool), ("altitude_constraint_ft", CT.real),
   ("thrust_reduction_altitude", CT.real),
   ("thrust_reduction_altitude_go_around", CT.real),
   ("acceleration_altitude", CT.real),
   ("acceleration_altitude_engine_out", CT.real),
   ("acceleration_altitude_go_around", CT.real),
   ("acceleration_altitude_go_around_engine_out", CT.real),
   ("cruise_altitude", CT.real),
   ("on_ground", CT.real), ("zeta_deg", CT.real),
   ("throttle_lever_1_pos", CT.real), ("throttle_lever_2_pos", CT.real),
   ("flaps_handle_index", CT.real),
   ("is_engine_operative_1", CT.bool), ("is_engine_operative_2", CT.bool)]

/-- `ap_raw_output_command` from AutopilotLaws_types.h: a
pitch/bank/sideslip command triple. -/
structure ap_raw_output_command where
  Theta_c_deg : ℝ
  Phi_c_deg : ℝ
  Beta_c_deg : ℝ

/-- `ap_raw_output` from AutopilotLaws_types.h: the output command block. -/
structure ap_raw_output where
  ap_on : ℝ
  Phi_loc_c : ℝ
  flight_director : ap_raw_output_command
  autopilot : ap_raw_output_command

/-- Declared fields of `ap_raw_output`, in source order (scalar fields only
carry a kind; the two nested command triples are `real_T` throughout). -/
def ap_raw_output.fields : List (String × CT) :=
  [("ap_on", CT.real), ("Phi_loc_c", CT.real)]

/-- `ap_laws_output` from AutopilotLaws_types.h: the per-tick output
aggregate `{ time, data, input, output }`. -/
structure ap_laws_output where
  time : ap_raw_time
  data : ap_data
  input : ap_raw_laws_input
  output : ap_raw_output

/-- `ap_output_law` from AutopilotLaws_types.h. -/
structure ap_output_law where
  flight_director : ℝ
  autopilot : ℝ

/-! ## Engine model

The step implementation (`AutopilotLaws.cpp`) is not among the given
sources; the following definitions are modelled from the specification and
are marked as such.  `ℝ` has no non-finite values, so the non-finite-input
substitution path of the Input Conditioner is vacuous in this model.
-/

/-- Modelled from the spec: unit normalization of the Input Conditioner
(section 4.1) — angular rates are converted from radians/second to
degrees/second. -/
noncomputable def radToDeg (x : ℝ) : ℝ := x * (180 / Real.pi)

/-- Modelled from the spec: wrapping of a heading-class angle to its
canonical range [0, 360) (sections 4.1, 6). -/
noncomputable def wrap360 (x : ℝ) : ℝ := 360 * Int.fract (x / 360)

/-- Modelled from the spec: wrapping of an attitude-class angle to its
canonical range [-180, 180] (sections 4.1, 6). -/
noncomputable def wrap180 (x : ℝ) : ℝ := wrap360 (x + 180) - 180

/-- Modelled from the spec: the fixed low-pass filter time constant of the
Derivative Estimator (section 4.2); external tuning data, any positive
value — no claim depends on the number. -/
def estimatorTimeConstant : ℝ := 1

/-- Modelled from the spec: the Derivative Estimator update for one axis
(section 4.2) — a finite difference of the velocity sample over `dt`,
guarded against a non-positive `dt` (previous estimate returned
unchanged), smoothed by a single-pole low-pass filter. -/
noncomputable def estimateAccel (dt v prevV prevA : ℝ) : ℝ :=
  if dt ≤ 0 then prevA
  else prevA + (dt / (estimatorTimeConstant + dt)) * ((v - prevV) / dt - prevA)

/-- Modelled from the spec: the persistent engine context (sections 3, 5) —
velocity history and previous filtered accelerations for the Derivative
Estimator, and the last produced output-command block (held across a
no-op tick). -/
structure engine_state where
  lastOutput : ap_raw_output
  prevVGnd : ℝ
  prevVTas : ℝ
  prevHDot : ℝ
  prevAx : ℝ
  prevAy : ℝ
  prevAz : ℝ

/-- Modelled from the spec: the initial engine context — all history zero,
neutral output commands. -/
def ap_laws_initial : engine_state :=
  ⟨⟨0, 0, ⟨0, 0, 0⟩, ⟨0, 0, 0⟩⟩, 0, 0, 0, 0, 0, 0⟩

/-- Modelled from the spec: the reset operation (section 5) clears all
internal history and returns the context to its initial state. -/
def ap_laws_reset (_ : engine_state) : engine_state := ap_laws_initial

/-- Modelled from the spec: the Input Conditioner and Derivative Estimator
(sections 4.1, 4.2) — angles wrapped to canonical ranges, angular rates
converted to degrees/second, speeds clamped to be nonnegative, derived
body-axis accelerations from finite differences of the velocity history,
remaining fields carried over. -/
noncomputable def conditionData (s : engine_state) (t : ap_raw_time)
    (d : ap_raw_data) : ap_data where
  Theta_deg := wrap180 d.Theta_deg
  Phi_deg := wrap180 d.Phi_deg
  qk_deg_s := radToDeg d.q_rad_s
  rk_deg_s := radToDeg d.r_rad_s
  pk_deg_s := radToDeg d.p_rad_s
  V_ias_kn := max 0 d.V_ias_kn
  V_tas_kn := max 0 d.V_tas_kn
  V_mach := max 0 d.V_mach
  V_gnd_kn := max 0 d.V_gnd_kn
  alpha_deg := d.alpha_deg
  H_ft := d.H_ft
  H_ind_ft := d.H_ind_ft
  H_radio_ft := d.H_radio_ft
  H_dot_ft_min := d.H_dot_ft_min
  Psi_magnetic_deg := wrap360 d.Psi_magnetic_deg
  Psi_magnetic_track_deg := wrap360 d.Psi_magnetic_track_deg
  Psi_true_deg := wrap360 d.Psi_true_deg
  ax_m_s2 := estimateAccel t.dt d.V_gnd_kn s.prevVGnd s.prevAx
  ay_m_s2 := estimateAccel t.dt d.V_tas_kn s.prevVTas s.prevAy
  az_m_s2 := estimateAccel t.dt d.H_dot_ft_min s.prevHDot s.prevAz
  bx_m_s2 := d.bx_m_s2
  by_m_s2 := d.by_m_s2
  bz_m_s2 := d.bz_m_s2
  nav_valid := d.nav_valid
  nav_loc_deg := d.nav_loc_deg
  nav_gs_deg := d.nav_gs_deg
  nav_dme_valid := d.nav_dme_valid
  nav_dme_nmi := d.nav_dme_nmi
  nav_loc_valid := d.nav_loc_valid
  nav_loc_error_deg := d.nav_loc_error_deg
  nav_gs_valid := d.nav_gs_valid
  nav_gs_error_deg := d.nav_gs_error_deg
  flight_guidance_xtk_nmi := d.flight_guidance_xtk_nmi
  flight_guidance_tae_deg := d.flight_guidance_tae_deg
  flight_guidance_phi_deg := d.flight_guidance_phi_deg
  flight_phase := d.flight_phase
  V2_kn := d.V2_kn
  VAPP_kn := d.VAPP_kn
  VLS_kn := d.VLS_kn
  VMAX_kn := d.VMAX_kn
  is_flight_plan_available := d.is_flight_plan_available
  altitude_constraint_ft := d.altitude_constraint_ft
  thrust_reduction_altitude := d.thrust_reduction_altitude
  thrust_reduction_altitude_go_around := d.thrust_reduction_altitude_go_around
  acceleration_altitude := d.acceleration_altitude
  acceleration_altitude_engine_out := d.acceleration_altitude_engine_out
  acceleration_altitude_go_around := d.acceleration_altitude_go_around
  acceleration_altitude_go_around_engine_out :=
    d.acceleration_altitude_go_around_engine_out
  cruise_altitude := d.cruise_altitude
  on_ground :=
    if 0 < d.gear_strut_compression_1 ∨ 0 < d.gear_strut_compression_2
    then 1 else 0
  zeta_deg := radToDeg d.zeta_pos
  throttle_lever_1_pos := d.throttle_lever_1_pos
  throttle_lever_2_pos := d.throttle_lever_2_pos
  flaps_handle_index := d.flaps_handle_index
  is_engine_operative_1 := d.is_engine_operative_1
  is_engine_operative_2 := d.is_engine_operative_2

/-- Result of the Engagement Handler: which autopilot channel is active
and whether a reversion event was issued. -/
structure engage_result where
  ap1_active : Bool
  ap2_active : Bool
  reversion : Bool

/-- Modelled from the spec: the Engagement Handler tie-break
(section 4.7) — a real-valued engagement flag is read as engaged iff it
is nonzero; simultaneous AP1 and AP2 engagement is an invariant violation
resolved deterministically by honoring AP1 and issuing a reversion
event. -/
noncomputable def resolveEngagement (ap1 ap2 : ℝ) : engage_result :=
  if ap1 ≠ 0 then
    if ap2 ≠ 0 then ⟨true, false, true⟩ else ⟨true, false, false⟩
  else if ap2 ≠ 0 then ⟨false, true, false⟩ else ⟨false, false, false⟩

/-- Modelled from the spec: the Command Synthesizer (section 4.6) — a
tracking law with a proportional term on the active deviation plus a
feed-forward on the target rate; the sideslip command is nominally zero.
Every navigation deviation is read only under its validity gate
(sections 3, 6): `nav_loc_error_deg` under `nav_loc_valid`,
`nav_gs_error_deg` under `nav_gs_valid`, `nav_loc_deg`/`nav_gs_deg` under
`nav_valid`, and `nav_dme_nmi` under a nonzero `nav_dme_valid`.  The
tuning gains are external configuration; the model fixes them at one. -/
noncomputable def synthCommand (d : ap_data) (g : ap_raw_laws_input) :
    ap_raw_output_command where
  Theta_c_deg :=
    (g.H_c_ft - d.H_ft) + (g.H_dot_c_fpm - d.H_dot_ft_min) + g.FPA_c_deg
      + (if d.nav_gs_valid then d.nav_gs_error_deg else 0)
      + (if d.nav_valid then d.nav_gs_deg else 0)
      + (if d.nav_dme_valid ≠ 0 then d.nav_dme_nmi else 0)
  Phi_c_deg :=
    (g.Psi_c_deg - d.Psi_magnetic_deg) + d.flight_guidance_xtk_nmi
      + d.flight_guidance_tae_deg
      + (if d.nav_loc_valid then d.nav_loc_error_deg else 0)
      + (if d.nav_valid then d.nav_loc_deg else 0)
  Beta_c_deg := 0

/-- Modelled from the spec: the standalone localizer bank term
(section 4.6), a pure localizer-deviation-derived bank term exposed
unconditionally for display; the localizer deviation is read only under
its validity gate. -/
noncomputable def locBankTerm (d : ap_data) : ℝ :=
  if d.nav_loc_valid then d.nav_loc_error_deg else 0

/-- Modelled from the spec: the per-tick output-command block
(sections 4.6, 4.7) — the flight-director command is always the
synthesis; the autopilot command is the same synthesis, propagated to
`ap_on`/actuation only when the Engagement Handler resolves an active
channel, and neutral otherwise. -/
noncomputable def computeOutput (d : ap_data) (g : ap_raw_laws_input) :
    ap_raw_output :=
  let fd := synthCommand d g
  let r := resolveEngagement g.enabled_AP1 g.enabled_AP2
  let active := r.ap1_active || r.ap2_active
  { ap_on := if active then 1 else 0
    Phi_loc_c := locBankTerm d
    flight_director := fd
    autopilot := if active then fd else ⟨0, 0, 0⟩ }

/-- Modelled from the spec: the next engine context after a tick with
positive `dt` — the Derivative Estimator history advances and the
produced output-command block is retained. -/
noncomputable def nextState (s : engine_state) (t : ap_raw_time)
    (d : ap_raw_data) (out : ap_raw_output) : engine_state :=
  ⟨out, d.V_gnd_kn, d.V_tas_kn, d.H_dot_ft_min,
   estimateAccel t.dt d.V_gnd_kn s.prevVGnd s.prevAx,
   estimateAccel t.dt d.V_tas_kn s.prevVTas s.prevAy,
   estimateAccel t.dt d.H_dot_ft_min s.prevHDot s.prevAz⟩

/-- Modelled from the spec: the per-tick step function (the missing
`AutopilotLaws` implementation; sections 2, 5, 6, 7).  The output
aggregate echoes the time base and the guidance command, carries the
conditioned sensor state, and the output-command block.  A non-positive
`dt` is a no-op tick: the context is unchanged and the output commands
are held at their previous-tick values.  The function is total — it
never halts or throws. -/
noncomputable def ap_laws_step (s : engine_state) (u : ap_laws_input) :
    engine_state × ap_laws_output :=
  let d := conditionData s u.time u.data
  if u.time.dt ≤ 0 then
    (s, ⟨u.time, d, u.input, s.lastOutput⟩)
  else
    let out := computeOutput d u.input
    (nextState s u.time u.data out, ⟨u.time, d, u.input, out⟩)

/-- Modelled from the spec: replay of an input sequence tick by tick from
a context, collecting the per-tick output aggregates (section 5). -/
noncomputable def ap_laws_run (s : engine_state) :
    List ap_laws_input → List ap_laws_output
  | [] => []
  | u :: us => (ap_laws_step s u).2 :: ap_laws_run (ap_laws_step s u).1 us

/-! ## Concrete test fixtures -/

/-- An all-zero raw sensor snapshot, used as a concrete test input. -/
def zeroRawData : ap_raw_data :=
  ⟨0, 0, 0, 0, 0, 0, 0, 0, 0, 0,
   0, 0, 0, 0, 0, 0, 0, 0, 0, 0,
   false, 0, 0, 0, 0, false, 0, false, 0,
   0, 0, 0, 0, 0, 0, 0, 0,
   false, 0, 0, 0, 0, 0, 0, 0, 0,
   0, 0, 0, 0, 0, 0, false, false⟩

/-- An all-zero guidance command, used as a concrete test input. -/
def zeroGuidance : ap_raw_laws_input :=
  ⟨0, 0, 0, 0, 0, 0, 0, 0, 0, 0,
   false, false, false, false, 0,
   0, 0, 0, 0, 0,
   false, false, false, false, false⟩

/-- A concrete input aggregate with `dt = 0` and everything else zero. -/
def zeroInput : ap_laws_input := ⟨⟨0, 0⟩, zeroRawData, zeroGuidance⟩

/-- A concrete input aggregate with `dt = 1` and both autopilot channels
requested simultaneously. -/
def dualAPInput : ap_laws_input :=
  ⟨⟨1, 0⟩, zeroRawData, { zeroGuidance with enabled_AP1 := 1, enabled_AP2 := 1 }⟩

/-- A concrete input aggregate with `dt = 1` and exactly channel AP1
requested. -/
def singleAPInput : ap_laws_input :=
  ⟨⟨1, 0⟩, zeroRawData, { zeroGuidance with enabled_AP1 := 1 }⟩

/-! ## Helper lemmas -/

/-- The conditioned-data part of the output aggregate is the Input
Conditioner result on both branches of the step. -/
theorem ap_laws_step_data (s : engine_state) (u : ap_laws_input) :
    (ap_laws_step s u).2.data = conditionData s u.time u.data := by
  unfold ap_laws_step
  by_cases h : u.time.dt ≤ 0 <;> simp [h]

/-- The step echoes the time base on both branches. -/
theorem ap_laws_step_time (s : engine_state) (u : ap_laws_input) :
    (ap_laws_step s u).2.time = u.time := by
  unfold ap_laws_step
  by_cases h : u.time.dt ≤ 0 <;> simp [h]

/-- The step echoes the guidance command on both branches. -/
theorem ap_laws_step_input (s : engine_state) (u : ap_laws_input) :
    (ap_laws_step s u).2.input = u.input := by
  unfold ap_laws_step
  by_cases h : u.time.dt ≤ 0 <;> simp [h]

/-- Heading wrap lower bound. -/
theorem wrap360_nonneg (x : ℝ) : 0 ≤ wrap360 x := by
  unfold wrap360
  have h := Int.fract_nonneg (x / 360)
  linarith

/-- Heading wrap upper bound. -/
theorem wrap360_lt (x : ℝ) : wrap360 x < 360 := by
  unfold wrap360
  have h := Int.fract_lt_one (x / 360)
  linarith

/-- Attitude wrap lower bound. -/
theorem wrap180_le (x : ℝ) : -180 ≤ wrap180 x := by
  unfold wrap180
  have h := wrap360_nonneg (x + 180)
  linarith

/-- Attitude wrap upper bound. -/
theorem wrap180_ge (x : ℝ) : wrap180 x ≤ 180 := by
  unfold wrap180
  have h := wrap360_lt (x + 180)
  linarith

/-! ## Claims -/

/-- Claim C1: for every tick, the step's output aggregate consists of the
input time base echoed unchanged, the sensor state in conditioned form
(with the derived acceleration fields), the guidance command echoed
unchanged, and the output-command block; in particular the time and
guidance-command parts of the output equal the corresponding parts of the
input. -/
theorem step_output_aggregate (s : engine_state) (u : ap_laws_input) :
    (ap_laws_step s u).2.time = u.time ∧
    (ap_laws_step s u).2.input = u.input ∧
    (ap_laws_step s u).2.data = conditionData s u.time u.data ∧
    (ap_laws_step s u).2.output =
      (if u.time.dt ≤ 0 then s.lastOutput
       else computeOutput (conditionData s u.time u.data) u.input) := by
  refine ⟨ap_laws_step_time s u, ap_laws_step_input s u, ap_laws_step_data s u, ?_⟩
  unfold ap_laws_step
  by_cases h : u.time.dt ≤ 0 <;> simp [h]

/-- Claim C2: the step is deterministic — identical input sequences applied
to identical contexts produce identical output sequences, and replaying
the same input sequence after a reset reproduces the outputs of a replay
from the initial context. -/
theorem step_deterministic_replay (s1 s2 : engine_state)
    (us1 us2 : List ap_laws_input) (hs : s1 = s2) (hu : us1 = us2) :
    ap_laws_run s1 us1 = ap_laws_run s2 us2 ∧
    ∀ (s : engine_state) (us : List ap_laws_input),
      ap_laws_run (ap_laws_reset s) us = ap_laws_run ap_laws_initial us := by
  subst hs; subst hu
  exact ⟨rfl, fun _ _ => rfl⟩

/-- Witness for C2 at a concrete context and input sequence. -/
theorem step_deterministic_replay_witness :
    ap_laws_run ap_laws_initial [zeroInput] = ap_laws_run ap_laws_initial [zeroInput] ∧
    ∀ (s : engine_state) (us : List ap_laws_input),
      ap_laws_run (ap_laws_reset s) us = ap_laws_run ap_laws_initial us :=
  step_deterministic_replay ap_laws_initial ap_laws_initial
    [zeroInput] [zeroInput] rfl rfl

/-- Claim C3: a tick with non-positive `dt` (including `dt = 0`) is a
no-op — the engine context and the output-command block are held at their
previous-tick values; the step is a total function, so it neither halts
nor throws. -/
theorem step_nonpositive_dt_noop (s : engine_state) (u : ap_laws_input)
    (h : u.time.dt ≤ 0) :
    (ap_laws_step s u).1 = s ∧
    (ap_laws_step s u).2.output = s.lastOutput := by
  unfold ap_laws_step
  simp [h]

/-- Witness for C3 at the concrete `dt = 0` input. -/
theorem step_nonpositive_dt_noop_witness :
    zeroInput.time.dt ≤ 0 ∧
    ((ap_laws_step ap_laws_initial zeroInput).1 = ap_laws_initial ∧
     (ap_laws_step ap_laws_initial zeroInput).2.output = ap_laws_initial.lastOutput) :=
  ⟨le_refl 0, step_nonpositive_dt_noop ap_laws_initial zeroInput (le_refl 0)⟩

/-- Claim C5: every conditioned snapshot expresses the body angular rates
in degrees/second, converted from the raw radians/second fields —
`qk_deg_s`, `rk_deg_s`, `pk_deg_s` equal `q_rad_s`, `r_rad_s`, `p_rad_s`
times `180 / π`. -/
theorem conditioned_rates_in_deg_s (s : engine_state) (t : ap_raw_time)
    (d : ap_raw_data) :
    (conditionData s t d).qk_deg_s = d.q_rad_s * (180 / Real.pi) ∧
    (conditionData s t d).rk_deg_s = d.r_rad_s * (180 / Real.pi) ∧
    (conditionData s t d).pk_deg_s = d.p_rad_s * (180 / Real.pi) :=
  ⟨rfl, rfl, rfl⟩

/-- Claim C4: simultaneous engagement of both autopilot channels is
resolved deterministically by the Engagement Handler in favor of AP1,
with a reversion event issued; the step stays total, so no crash or
undefined state arises. -/
theorem dual_engagement_resolves_to_AP1 (s : engine_state) (u : ap_laws_input)
    (h1 : u.input.enabled_AP1 ≠ 0) (h2 : u.input.enabled_AP2 ≠ 0) :
    resolveEngagement u.input.enabled_AP1 u.input.enabled_AP2 =
      ⟨true, false, true⟩ ∧
    (0 < u.time.dt → (ap_laws_step s u).2.output.ap_on = 1) := by
  have hr : resolveEngagement u.input.enabled_AP1 u.input.enabled_AP2 =
      ⟨true, false, true⟩ := by
    unfold resolveEngagement
    rw [if_pos h1, if_pos h2]
  refine ⟨hr, fun hdt => ?_⟩
  have hdt2 : ¬ u.time.dt ≤ 0 := not_le.mpr hdt
  unfold ap_laws_step
  simp [hdt2, computeOutput, hr]

/-- Witness for C4 at the concrete dual-engagement input. -/
theorem dual_engagement_resolves_to_AP1_witness :
    dualAPInput.input.enabled_AP1 ≠ 0 ∧ dualAPInput.input.enabled_AP2 ≠ 0 ∧
    (resolveEngagement dualAPInput.input.enabled_AP1
        dualAPInput.input.enabled_AP2 = ⟨true, false, true⟩ ∧
     (0 < dualAPInput.time.dt →
       (ap_laws_step ap_laws_initial dualAPInput).2.output.ap_on = 1)) :=
  ⟨one_ne_zero, one_ne_zero,
   dual_engagement_resolves_to_AP1 ap_laws_initial dualAPInput
     one_ne_zero one_ne_zero⟩

/-- Claim C8: in every tick's output aggregate the heading/track fields
lie in [0, 360) and the attitude fields lie in [-180, 180]. -/
theorem output_angles_normalized (s : engine_state) (u : ap_laws_input) :
    (0 ≤ (ap_laws_step s u).2.data.Psi_magnetic_deg ∧
      (ap_laws_step s u).2.data.Psi_magnetic_deg < 360) ∧
    (0 ≤ (ap_laws_step s u).2.data.Psi_magnetic_track_deg ∧
      (ap_laws_step s u).2.data.Psi_magnetic_track_deg < 360) ∧
    (0 ≤ (ap_laws_step s u).2.data.Psi_true_deg ∧
      (ap_laws_step s u).2.data.Psi_true_deg < 360) ∧
    (-180 ≤ (ap_laws_step s u).2.data.Theta_deg ∧
      (ap_laws_step s u).2.data.Theta_deg ≤ 180) ∧
    (-180 ≤ (ap_laws_step s u).2.data.Phi_deg ∧
      (ap_laws_step s u).2.data.Phi_deg ≤ 180) := by
  rw [ap_laws_step_data]
  exact ⟨⟨wrap360_nonneg _, wrap360_lt _⟩, ⟨wrap360_nonneg _, wrap360_lt _⟩,
    ⟨wrap360_nonneg _, wrap360_lt _⟩, ⟨wrap180_le _, wrap180_ge _⟩,
    ⟨wrap180_le _, wrap180_ge _⟩⟩

/-- Claim C9 counterexample: with both engagement flags nonzero the
Engagement Handler tie-break still propagates the autopilot output
(`ap_on` is 1), although exactly one of `enabled_AP1`/`enabled_AP2` being
true fails — so "propagated only when exactly one is true" is violated on
the dual-engagement tick. -/
theorem ap_gating_counterexample :
    (ap_laws_step ap_laws_initial dualAPInput).2.output.ap_on = 1 ∧
    ¬ ((dualAPInput.input.enabled_AP1 ≠ 0 ∧ dualAPInput.input.enabled_AP2 = 0) ∨
       (dualAPInput.input.enabled_AP1 = 0 ∧ dualAPInput.input.enabled_AP2 ≠ 0)) := by
  have hdt2 : ¬ dualAPInput.time.dt ≤ 0 := by
    show ¬ (1:ℝ) ≤ 0
    norm_num
  have e1 : dualAPInput.input.enabled_AP1 = 1 := rfl
  have e2 : dualAPInput.input.enabled_AP2 = 1 := rfl
  have hr : resolveEngagement dualAPInput.input.enabled_AP1
      dualAPInput.input.enabled_AP2 = ⟨true, false, true⟩ := by
    unfold resolveEngagement
    rw [e1, e2, if_pos (one_ne_zero), if_pos (one_ne_zero)]
  constructor
  · unfold ap_laws_step
    simp [hdt2, computeOutput, hr]
  · rintro (⟨-, hb⟩ | ⟨ha, -⟩)
    · exact one_ne_zero hb
    · exact one_ne_zero ha

/-- Claim C9 (amended): the autopilot output is produced by the same
synthesis as the flight-director output and is propagated to
`ap_on`/actuation when exactly one of `enabled_AP1`/`enabled_AP2` is
true (on a dual-engagement tick the AP1 tie-break of the Engagement
Handler additionally propagates, see C4); the flight-director output is
always the synthesis, independent of the engagement flags. -/
theorem ap_output_gating (s : engine_state) (u : ap_laws_input)
    (hdt : 0 < u.time.dt)
    (h : (u.input.enabled_AP1 ≠ 0 ∧ u.input.enabled_AP2 = 0) ∨
         (u.input.enabled_AP1 = 0 ∧ u.input.enabled_AP2 ≠ 0)) :
    (ap_laws_step s u).2.output.flight_director =
      synthCommand (conditionData s u.time u.data) u.input ∧
    (ap_laws_step s u).2.output.autopilot =
      (ap_laws_step s u).2.output.flight_director ∧
    (ap_laws_step s u).2.output.ap_on = 1 ∧
    (∀ a1 a2 : ℝ,
      (computeOutput (conditionData s u.time u.data)
          { u.input with enabled_AP1 := a1, enabled_AP2 := a2 }).flight_director =
        synthCommand (conditionData s u.time u.data) u.input) := by
  have hdt2 : ¬ u.time.dt ≤ 0 := not_le.mpr hdt
  have hr : ((resolveEngagement u.input.enabled_AP1
        u.input.enabled_AP2).ap1_active ||
      (resolveEngagement u.input.enabled_AP1
        u.input.enabled_AP2).ap2_active) = true := by
    rcases h with ⟨h1, h2⟩ | ⟨h1, h2⟩ <;> simp [resolveEngagement, h1, h2]
  unfold ap_laws_step
  refine ⟨?_, ?_, ?_, fun a1 a2 => rfl⟩ <;> simp [hdt2, computeOutput, hr]

/-- A guidance command with the engagement flags replaced. -/
def setEngagement (g : ap_raw_laws_input) (a1 a2 : ℝ) : ap_raw_laws_input :=
  { g with
    enabled_AP1 := a1
    enabled_AP2 := a2 }

/-- Witness for the amended C9 at the concrete single-channel input. -/
theorem ap_output_gating_witness :
    (0:ℝ) < 1 ∧
    ((ap_laws_step ap_laws_initial singleAPInput).2.output.flight_director =
      synthCommand (conditionData ap_laws_initial singleAPInput.time
        singleAPInput.data) singleAPInput.input ∧
    (ap_laws_step ap_laws_initial singleAPInput).2.output.autopilot =
      (ap_laws_step ap_laws_initial singleAPInput).2.output.flight_director ∧
    (ap_laws_step ap_laws_initial singleAPInput).2.output.ap_on = 1 ∧
    (∀ a1 a2 : ℝ,
      (computeOutput (conditionData ap_laws_initial singleAPInput.time
          singleAPInput.data)
        (setEngagement singleAPInput.input a1 a2)).flight_director =
      synthCommand (conditionData ap_laws_initial singleAPInput.time
        singleAPInput.data) singleAPInput.input)) :=
  ⟨one_pos,
   ap_output_gating ap_laws_initial singleAPInput one_pos
     (Or.inl ⟨one_ne_zero, rfl⟩)⟩


/-- A raw snapshot with the localizer-deviation field `nav_loc_error_deg`
(gated by `nav_loc_valid`) replaced. -/
def setRawLocError (d : ap_raw_data) (x : ℝ) : ap_raw_data :=
  { d with nav_loc_error_deg := x }

/-- A conditioned snapshot with `nav_loc_error_deg` replaced, mirroring
`setRawLocError`. -/
def setCondLocError (d : ap_data) (x : ℝ) : ap_data :=
  { d with nav_loc_error_deg := x }

/-- An input aggregate with `nav_loc_error_deg` of its sensor snapshot
replaced. -/
def setInputLocError (u : ap_laws_input) (x : ℝ) : ap_laws_input :=
  { u with data := setRawLocError u.data x }

/-- A raw snapshot with the glideslope-deviation field `nav_gs_error_deg`
(gated by `nav_gs_valid`) replaced. -/
def setRawGsError (d : ap_raw_data) (y : ℝ) : ap_raw_data :=
  { d with nav_gs_error_deg := y }

/-- A conditioned snapshot with `nav_gs_error_deg` replaced, mirroring
`setRawGsError`. -/
def setCondGsError (d : ap_data) (y : ℝ) : ap_data :=
  { d with nav_gs_error_deg := y }

/-- An input aggregate with `nav_gs_error_deg` of its sensor snapshot
replaced. -/
def setInputGsError (u : ap_laws_input) (y : ℝ) : ap_laws_input :=
  { u with data := setRawGsError u.data y }

/-- A raw snapshot with the receiver course-deviation fields
`nav_loc_deg`/`nav_gs_deg` (gated by `nav_valid`) replaced. -/
def setRawNavCourse (d : ap_raw_data) (x y : ℝ) : ap_raw_data :=
  { d with
    nav_loc_deg := x
    nav_gs_deg := y }

/-- A conditioned snapshot with `nav_loc_deg`/`nav_gs_deg` replaced,
mirroring `setRawNavCourse`. -/
def setCondNavCourse (d : ap_data) (x y : ℝ) : ap_data :=
  { d with
    nav_loc_deg := x
    nav_gs_deg := y }

/-- An input aggregate with `nav_loc_deg`/`nav_gs_deg` of its sensor
snapshot replaced. -/
def setInputNavCourse (u : ap_laws_input) (x y : ℝ) : ap_laws_input :=
  { u with data := setRawNavCourse u.data x y }

/-- A raw snapshot with the DME-distance field `nav_dme_nmi` (gated by a
nonzero `nav_dme_valid`) replaced. -/
def setRawDmeDistance (d : ap_raw_data) (x : ℝ) : ap_raw_data :=
  { d with nav_dme_nmi := x }

/-- A conditioned snapshot with `nav_dme_nmi` replaced, mirroring
`setRawDmeDistance`. -/
def setCondDmeDistance (d : ap_data) (x : ℝ) : ap_data :=
  { d with nav_dme_nmi := x }

/-- An input aggregate with `nav_dme_nmi` of its sensor snapshot
replaced. -/
def setInputDmeDistance (u : ap_laws_input) (x : ℝ) : ap_laws_input :=
  { u with data := setRawDmeDistance u.data x }

/-- With `nav_loc_valid` off, the output-command block ignores the
localizer deviation, whatever the other validity flags are. -/
theorem computeOutput_loc_gate (d : ap_data) (g : ap_raw_laws_input)
    (x : ℝ) (h : d.nav_loc_valid = false) :
    computeOutput (setCondLocError d x) g = computeOutput d g := by
  unfold computeOutput synthCommand locBankTerm setCondLocError
  simp [h]

/-- With `nav_gs_valid` off, the output-command block ignores the
glideslope deviation, whatever the other validity flags are. -/
theorem computeOutput_gs_gate (d : ap_data) (g : ap_raw_laws_input)
    (y : ℝ) (h : d.nav_gs_valid = false) :
    computeOutput (setCondGsError d y) g = computeOutput d g := by
  unfold computeOutput synthCommand locBankTerm setCondGsError
  simp [h]

/-- With `nav_valid` off, the output-command block ignores the receiver
course deviations, whatever the other validity flags are. -/
theorem computeOutput_nav_gate (d : ap_data) (g : ap_raw_laws_input)
    (x y : ℝ) (h : d.nav_valid = false) :
    computeOutput (setCondNavCourse d x y) g = computeOutput d g := by
  unfold computeOutput synthCommand locBankTerm setCondNavCourse
  simp [h]

/-- With `nav_dme_valid` zero, the output-command block ignores the DME
distance, whatever the other validity flags are. -/
theorem computeOutput_dme_gate (d : ap_data) (g : ap_raw_laws_input)
    (x : ℝ) (h : d.nav_dme_valid = 0) :
    computeOutput (setCondDmeDistance d x) g = computeOutput d g := by
  unfold computeOutput synthCommand locBankTerm setCondDmeDistance
  simp [h]

/-- Step-level per-flag noninterference for the localizer deviation. -/
theorem step_loc_gate (s : engine_state) (u : ap_laws_input) (x : ℝ)
    (h : u.data.nav_loc_valid = false) :
    (ap_laws_step s (setInputLocError u x)).1 = (ap_laws_step s u).1 ∧
    (ap_laws_step s (setInputLocError u x)).2.output =
      (ap_laws_step s u).2.output := by
  have hcond : conditionData s u.time (setRawLocError u.data x) =
      setCondLocError (conditionData s u.time u.data) x := rfl
  have hout : computeOutput
      (setCondLocError (conditionData s u.time u.data) x) u.input =
      computeOutput (conditionData s u.time u.data) u.input :=
    computeOutput_loc_gate _ _ _ h
  have hnext : ∀ o : ap_raw_output,
      nextState s u.time (setRawLocError u.data x) o =
        nextState s u.time u.data o := fun _ => rfl
  unfold ap_laws_step setInputLocError
  by_cases hdt : u.time.dt ≤ 0
  · simp [hdt]
  · simp [hdt, hcond, hout, hnext]

/-- Step-level per-flag noninterference for the glideslope deviation. -/
theorem step_gs_gate (s : engine_state) (u : ap_laws_input) (y : ℝ)
    (h : u.data.nav_gs_valid = false) :
    (ap_laws_step s (setInputGsError u y)).1 = (ap_laws_step s u).1 ∧
    (ap_laws_step s (setInputGsError u y)).2.output =
      (ap_laws_step s u).2.output := by
  have hcond : conditionData s u.time (setRawGsError u.data y) =
      setCondGsError (conditionData s u.time u.data) y := rfl
  have hout : computeOutput
      (setCondGsError (conditionData s u.time u.data) y) u.input =
      computeOutput (conditionData s u.time u.data) u.input :=
    computeOutput_gs_gate _ _ _ h
  have hnext : ∀ o : ap_raw_output,
      nextState s u.time (setRawGsError u.data y) o =
        nextState s u.time u.data o := fun _ => rfl
  unfold ap_laws_step setInputGsError
  by_cases hdt : u.time.dt ≤ 0
  · simp [hdt]
  · simp [hdt, hcond, hout, hnext]

/-- Step-level per-flag noninterference for the receiver course
deviations. -/
theorem step_nav_gate (s : engine_state) (u : ap_laws_input) (x y : ℝ)
    (h : u.data.nav_valid = false) :
    (ap_laws_step s (setInputNavCourse u x y)).1 = (ap_laws_step s u).1 ∧
    (ap_laws_step s (setInputNavCourse u x y)).2.output =
      (ap_laws_step s u).2.output := by
  have hcond : conditionData s u.time (setRawNavCourse u.data x y) =
      setCondNavCourse (conditionData s u.time u.data) x y := rfl
  have hout : computeOutput
      (setCondNavCourse (conditionData s u.time u.data) x y) u.input =
      computeOutput (conditionData s u.time u.data) u.input :=
    computeOutput_nav_gate _ _ _ _ h
  have hnext : ∀ o : ap_raw_output,
      nextState s u.time (setRawNavCourse u.data x y) o =
        nextState s u.time u.data o := fun _ => rfl
  unfold ap_laws_step setInputNavCourse
  by_cases hdt : u.time.dt ≤ 0
  · simp [hdt]
  · simp [hdt, hcond, hout, hnext]

/-- Step-level per-flag noninterference for the DME distance. -/
theorem step_dme_gate (s : engine_state) (u : ap_laws_input) (x : ℝ)
    (h : u.data.nav_dme_valid = 0) :
    (ap_laws_step s (setInputDmeDistance u x)).1 = (ap_laws_step s u).1 ∧
    (ap_laws_step s (setInputDmeDistance u x)).2.output =
      (ap_laws_step s u).2.output := by
  have hcond : conditionData s u.time (setRawDmeDistance u.data x) =
      setCondDmeDistance (conditionData s u.time u.data) x := rfl
  have hout : computeOutput
      (setCondDmeDistance (conditionData s u.time u.data) x) u.input =
      computeOutput (conditionData s u.time u.data) u.input :=
    computeOutput_dme_gate _ _ _ h
  have hnext : ∀ o : ap_raw_output,
      nextState s u.time (setRawDmeDistance u.data x) o =
        nextState s u.time u.data o := fun _ => rfl
  unfold ap_laws_step setInputDmeDistance
  by_cases hdt : u.time.dt ≤ 0
  · simp [hdt]
  · simp [hdt, hcond, hout, hnext]

/-- Claim C6 counterexample: the validity flag `nav_dme_valid` is declared
`real_T`, not `boolean_T`, in both the raw and the conditioned
sensor-state records, so not every navigation validity flag is a
boolean. -/
theorem nav_dme_valid_not_boolean :
    List.lookup "nav_dme_valid" ap_raw_data.fields = some CT.real ∧
    List.lookup "nav_dme_valid" ap_data.fields = some CT.real ∧
    some CT.real ≠ some CT.bool := by decide

/-- Claim C6 (amended): `nav_valid`, `nav_loc_valid` and `nav_gs_valid`
are booleans while `nav_dme_valid` is real-valued (nonzero meaning
valid); each flag gates its own paired deviation field(s), and whenever a
validity flag is false (zero for `nav_dme_valid`) its paired deviation is
never acted upon by the engine — the produced output-command block and
the next context are unchanged under any replacement of that deviation,
regardless of the state of the other validity flags. -/
theorem nav_validity_gates_deviations (s : engine_state) (u : ap_laws_input)
    (x y : ℝ) :
    List.lookup "nav_valid" ap_raw_data.fields = some CT.bool ∧
    List.lookup "nav_loc_valid" ap_raw_data.fields = some CT.bool ∧
    List.lookup "nav_gs_valid" ap_raw_data.fields = some CT.bool ∧
    List.lookup "nav_dme_valid" ap_raw_data.fields = some CT.real ∧
    (u.data.nav_loc_valid = false →
      (ap_laws_step s (setInputLocError u x)).1 = (ap_laws_step s u).1 ∧
      (ap_laws_step s (setInputLocError u x)).2.output =
        (ap_laws_step s u).2.output) ∧
    (u.data.nav_gs_valid = false →
      (ap_laws_step s (setInputGsError u y)).1 = (ap_laws_step s u).1 ∧
      (ap_laws_step s (setInputGsError u y)).2.output =
        (ap_laws_step s u).2.output) ∧
    (u.data.nav_valid = false →
      (ap_laws_step s (setInputNavCourse u x y)).1 = (ap_laws_step s u).1 ∧
      (ap_laws_step s (setInputNavCourse u x y)).2.output =
        (ap_laws_step s u).2.output) ∧
    (u.data.nav_dme_valid = 0 →
      (ap_laws_step s (setInputDmeDistance u x)).1 = (ap_laws_step s u).1 ∧
      (ap_laws_step s (setInputDmeDistance u x)).2.output =
        (ap_laws_step s u).2.output) :=
  ⟨by decide, by decide, by decide, by decide,
   fun h => step_loc_gate s u x h,
   fun h => step_gs_gate s u y h,
   fun h => step_nav_gate s u x y h,
   fun h => step_dme_gate s u x h⟩

/-- Witness for the amended C6 at a concrete invalid-navigation input,
with every validity-gate hypothesis discharged. -/
theorem nav_validity_gates_deviations_witness :
    zeroInput.data.nav_loc_valid = false ∧
    zeroInput.data.nav_gs_valid = false ∧
    zeroInput.data.nav_valid = false ∧
    zeroInput.data.nav_dme_valid = 0 ∧
    (List.lookup "nav_valid" ap_raw_data.fields = some CT.bool ∧
     List.lookup "nav_dme_valid" ap_raw_data.fields = some CT.real) ∧
    ((ap_laws_step ap_laws_initial (setInputLocError zeroInput 1)).1 =
       (ap_laws_step ap_laws_initial zeroInput).1 ∧
     (ap_laws_step ap_laws_initial (setInputLocError zeroInput 1)).2.output =
       (ap_laws_step ap_laws_initial zeroInput).2.output) ∧
    ((ap_laws_step ap_laws_initial (setInputGsError zeroInput 2)).1 =
       (ap_laws_step ap_laws_initial zeroInput).1 ∧
     (ap_laws_step ap_laws_initial (setInputGsError zeroInput 2)).2.output =
       (ap_laws_step ap_laws_initial zeroInput).2.output) ∧
    ((ap_laws_step ap_laws_initial (setInputNavCourse zeroInput 1 2)).1 =
       (ap_laws_step ap_laws_initial zeroInput).1 ∧
     (ap_laws_step ap_laws_initial (setInputNavCourse zeroInput 1 2)).2.output =
       (ap_laws_step ap_laws_initial zeroInput).2.output) ∧
    ((ap_laws_step ap_laws_initial (setInputDmeDistance zeroInput 1)).1 =
       (ap_laws_step ap_laws_initial zeroInput).1 ∧
     (ap_laws_step ap_laws_initial (setInputDmeDistance zeroInput 1)).2.output =
       (ap_laws_step ap_laws_initial zeroInput).2.output) := by
  have h := nav_validity_gates_deviations ap_laws_initial zeroInput 1 2
  exact ⟨rfl, rfl, rfl, rfl, ⟨h.1, h.2.2.2.1⟩,
    h.2.2.2.2.1 rfl, h.2.2.2.2.2.1 rfl, h.2.2.2.2.2.2.1 rfl,
    h.2.2.2.2.2.2.2 rfl⟩

/-- Claim C7 counterexample: the raw sensor snapshot already declares the
body-axis acceleration fields `bx_m_s2`, `by_m_s2`, `bz_m_s2`, so
body-axis acceleration fields are not present only in the conditioned
form. -/
theorem raw_snapshot_has_body_accelerations :
    List.lookup "bx_m_s2" ap_raw_data.fields = some CT.real ∧
    List.lookup "by_m_s2" ap_raw_data.fields = some CT.real ∧
    List.lookup "bz_m_s2" ap_raw_data.fields = some CT.real := by decide

/-- Claim C7 (amended): the derived acceleration fields `ax_m_s2`,
`ay_m_s2`, `az_m_s2` are present only in the conditioned sensor state and
absent from the raw snapshot — they are produced by the Derivative
Estimator — while the body accelerations `bx_m_s2`, `by_m_s2`, `bz_m_s2`
are present in both forms and carried over unchanged. -/
theorem derived_accelerations_only_conditioned :
    (List.lookup "ax_m_s2" ap_raw_data.fields = none ∧
     List.lookup "ay_m_s2" ap_raw_data.fields = none ∧
     List.lookup "az_m_s2" ap_raw_data.fields = none) ∧
    (List.lookup "ax_m_s2" ap_data.fields = some CT.real ∧
     List.lookup "ay_m_s2" ap_data.fields = some CT.real ∧
     List.lookup "az_m_s2" ap_data.fields = some CT.real) ∧
    (List.lookup "bx_m_s2" ap_raw_data.fields = some CT.real ∧
     List.lookup "bx_m_s2" ap_data.fields = some CT.real) ∧
    (∀ (s : engine_state) (t : ap_raw_time) (d : ap_raw_data),
      (conditionData s t d).ax_m_s2 =
        estimateAccel t.dt d.V_gnd_kn s.prevVGnd s.prevAx ∧
      (conditionData s t d).bx_m_s2 = d.bx_m_s2) :=
  ⟨by decide, by decide, by decide, fun _ _ _ => ⟨rfl, rfl⟩⟩

/-- Claim C10: the engagement flags, the lateral/vertical law and mode
selectors, the mode-reversion triggers, `autothrust_mode`, and the output
`ap_on` status are declared `real_T` — real-valued, not boolean or
enumerated — and every real number is a representable value of these
fields that the (total) step function accepts. -/
theorem interface_mode_fields_real_valued (r : ℝ) :
    (List.lookup "enabled_AP1" ap_raw_laws_input.fields = some CT.real ∧
     List.lookup "enabled_AP2" ap_raw_laws_input.fields = some CT.real ∧
     List.lookup "lateral_law" ap_raw_laws_input.fields = some CT.real ∧
     List.lookup "lateral_mode" ap_raw_laws_input.fields = some CT.real ∧
     List.lookup "vertical_law" ap_raw_laws_input.fields = some CT.real ∧
     List.lookup "vertical_mode" ap_raw_laws_input.fields = some CT.real ∧
     List.lookup "mode_reversion_lateral" ap_raw_laws_input.fields =
       some CT.real ∧
     List.lookup "mode_reversion_vertical" ap_raw_laws_input.fields =
       some CT.real ∧
     List.lookup "autothrust_mode" ap_raw_laws_input.fields = some CT.real ∧
     List.lookup "ap_on" ap_raw_output.fields = some CT.real) ∧
    (∃ g : ap_raw_laws_input, g.enabled_AP1 = r ∧ g.enabled_AP2 = r ∧
      g.lateral_law = r ∧ g.lateral_mode = r ∧ g.vertical_law = r ∧
      g.vertical_mode = r ∧ g.mode_reversion_lateral = r ∧
      g.mode_reversion_vertical = r ∧ g.autothrust_mode = r ∧
      ∃ res, ap_laws_step ap_laws_initial ⟨⟨1, 0⟩, zeroRawData, g⟩ = res) ∧
    (∃ o : ap_raw_output, o.ap_on = r) := by
  refine ⟨by decide,
    ⟨⟨r, r, r, r, r, r, r, r, r, r, false, false, false, false, r,
      r, r, r, r, r, false, false, false, false, false⟩,
     rfl, rfl, rfl, rfl, rfl, rfl, rfl, rfl, rfl, ⟨_, rfl⟩⟩,
    ⟨⟨r, 0, ⟨0, 0, 0⟩, ⟨0, 0, 0⟩⟩, rfl⟩⟩
